import Mathlib

/-!
Verification of the swift-gcs-edge repository: a MAVLink-to-MQTT drone bridge
(`src/drone_rpi/mavlink_mqtt_bridge_generic.py`) and a hub-side Flask API for
enrollment, ACL provisioning and drone configuration
(`src/hub_rpi/hub_manager_api.py`).

The Python code is shallowly embedded: pure data manipulation becomes Lean
functions, JSON values become an inductive `Json` type, file contents become
lists of lines, and external effects (environment variables, HTTP fetches,
subprocess outcomes) become explicit function parameters.  Machine floats in
the telemetry conversions are modelled as rationals (the concrete conversions
proved here are exact in both models).
-/

/-- A JSON value, as produced by Python's `json.loads` / consumed by `jsonify`.
Numbers are modelled as rationals. -/
inductive Json where
  | null
  | bool (b : Bool)
  | num (q : ℚ)
  | str (s : String)
  | arr (elems : List Json)
  | obj (entries : List (String × Json))

/-- Python truthiness of a JSON value (`if config:` in the bridge):
`None`, `False`, `0`, `""`, `[]` and `{}` are falsy, everything else truthy. -/
def Json.truthy : Json → Bool
  | .null => false
  | .bool b => b
  | .num q => q != 0
  | .str s => !(s.isEmpty)
  | .arr elems => !(elems.isEmpty)
  | .obj entries => !(entries.isEmpty)

/-- `d[k]` / `d.get(k)` on a JSON object: first entry with the given key
(JSON objects produced by `json.loads` have unique keys). Non-objects have no
keys (Python would raise, which callers catch). -/
def Json.getKey : Json → String → Option Json
  | .obj entries, k => List.lookup k entries
  | _, _ => none

/-- `dict.update(upd)` on association lists: existing keys keep their position
and receive the updated value, new keys are appended in order. -/
def updateEntries (base upd : List (String × Json)) : List (String × Json) :=
  base.map (fun kv => match List.lookup kv.1 upd with
    | some v => (kv.1, v)
    | none => kv) ++
  upd.filter (fun kv => (List.lookup kv.1 base).isNone)

/-- `config.update(api_config)` in `load_config`: succeeds only when both
values are dicts (a non-dict argument raises `TypeError`, modelled as `none`;
the caller catches it and keeps the un-merged config). -/
def Json.update : Json → Json → Option Json
  | .obj base, .obj upd => some (.obj (updateEntries base upd))
  | _, _ => none

/-- Python `int(s)` on a string, modelled by `String.toInt?`; `none` models the
`ValueError` raised on a non-numeric string. -/
def pythonInt (s : String) : Option Int := s.toInt?

namespace Drone

/-- `DEFAULT_CONFIG` of `mavlink_mqtt_bridge_generic.py` (lines 21-31). -/
def DEFAULT_CONFIG : List (String × Json) :=
  [("drone_asset_id", .str "DRONE_001"),
   ("mqtt_host", .str "192.168.4.1"),
   ("mqtt_port", .num 1883),
   ("mqtt_user", .str "drone_user"),
   ("mqtt_pass", .str "changeme"),
   ("mavlink_port", .str "/dev/ttyUSB0"),
   ("mavlink_baud", .num 57600),
   ("firmware_version", .str "1.0.0"),
   ("current_mode", .str "LAN")]

/-- `os.getenv(k, default)`: the environment is a partial map from names to
strings. -/
def envStr (env : String → Option String) (k d : String) : String :=
  (env k).getD d

/-- `int(os.getenv(k, default))` where the default is already an integer:
if the variable is unset the default is returned; if it is set, `int()` parses
it and `none` models the uncaught `ValueError` on a non-numeric value. -/
def envInt (env : String → Option String) (k : String) (d : Int) : Option Int :=
  match env k with
  | none => some d
  | some s => pythonInt s

/-- `load_config_from_env` (lines 47-61): copy of `DEFAULT_CONFIG` with
environment overrides for the seven listed keys.  `none` models the process
failing on a non-numeric `MQTT_PORT`/`MAVLINK_BAUD` (the `int()` call is not
wrapped in any handler). -/
def load_config_from_env (env : String → Option String) : Option Json :=
  match envInt env "MQTT_PORT" 1883, envInt env "MAVLINK_BAUD" 57600 with
  | some port, some baud =>
      some (.obj
        [("drone_asset_id", .str (envStr env "DRONE_ASSET_ID" "DRONE_001")),
         ("mqtt_host", .str (envStr env "MQTT_HOST" "192.168.4.1")),
         ("mqtt_port", .num port),
         ("mqtt_user", .str (envStr env "MQTT_USER" "drone_user")),
         ("mqtt_pass", .str (envStr env "MQTT_PASS" "changeme")),
         ("mavlink_port", .str (envStr env "MAVLINK_PORT" "/dev/ttyUSB0")),
         ("mavlink_baud", .num baud),
         ("firmware_version", .str "1.0.0"),
         ("current_mode", .str "LAN")])
  | _, _ => none

/-- Tiers 2-3 of `load_config` (lines 94-105): build the environment config,
then try the Hub API keyed by the resulting `drone_asset_id`; a fetch failure
(`api : ... → none`, since `fetch_config_from_api` catches its own errors and
returns `None`), a falsy response, or a `TypeError` from `config.update` all
leave the tier-2 config unchanged. -/
def load_config_tier23 (env : String → Option String)
    (api : String → Option Json) : Option Json :=
  match load_config_from_env env with
  | none => none
  | some cfg =>
      let assetId := match cfg.getKey "drone_asset_id" with
        | some (.str s) => s
        | _ => ""
      match api assetId with
      | none => some cfg
      | some apiCfg =>
          if apiCfg.truthy then
            match cfg.update apiCfg with
            | some merged => some merged
            | none => some cfg
          else some cfg

/-- `load_config` (lines 80-105).  `localParsed` is the result of
`load_local_config`: `some j` when `drone_config.json` exists and parses as
JSON value `j`, `none` when absent or malformed (lines 35-45 catch the parse
error and return `None`).  The truthiness test embeds line 90's
`if config: return config`. -/
def load_config (localParsed : Option Json) (env : String → Option String)
    (api : String → Option Json) : Option Json :=
  match localParsed with
  | some c => if c.truthy then some c else load_config_tier23 env api
  | none => load_config_tier23 env api

/-- Status topic published by `telemetry_publisher` (line 159). -/
def status_topic (drone_asset_id : String) : String :=
  "drone/" ++ drone_asset_id ++ "/status"

/-- Telemetry topic published by `telemetry_publisher` (line 172). -/
def telemetry_topic (drone_asset_id : String) : String :=
  "drone/" ++ drone_asset_id ++ "/telemetry"

/-- Command topic subscribed by `on_connect` (line 117). -/
def command_topic (drone_asset_id : String) : String :=
  "drone/" ++ drone_asset_id ++ "/command"

/-- The telemetry sample published for a `GLOBAL_POSITION_INT` message
(lines 163-171).  Floats are modelled as rationals. -/
structure TelemetrySample where
  timestamp : ℚ
  lat : ℚ
  lon : ℚ
  alt : ℚ
  vx : ℚ
  vy : ℚ
  drone_id : String

/-- The `GLOBAL_POSITION_INT` branch of `telemetry_publisher` (lines 162-173):
raw integer fields of the MAVLink message are converted
(`msg.lat / 10000000.0`, `msg.lon / 10000000.0`, `msg.alt / 1000.0`,
`msg.vx / 100.0`, `msg.vy / 100.0`) and the sample is published on the
device's telemetry topic. -/
def telemetry_message (drone_asset_id : String) (t : ℚ)
    (lat lon alt vx vy : ℤ) : String × TelemetrySample :=
  (telemetry_topic drone_asset_id,
   { timestamp := t
     lat := (lat : ℚ) / 10000000
     lon := (lon : ℚ) / 10000000
     alt := (alt : ℚ) / 1000
     vx := (vx : ℚ) / 100
     vy := (vy : ℚ) / 100
     drone_id := drone_asset_id })

/-- A MAVLink `command_long_send` invocation: target system, target component,
command id, confirmation, and seven parameters.  Parameters are JSON values
because `takeoff_drone` forwards the decoded `altitude` payload field
directly. -/
structure CommandLong where
  target_system : Nat
  target_component : Nat
  command : Nat
  confirmation : Nat
  param1 : Json
  param2 : Json
  param3 : Json
  param4 : Json
  param5 : Json
  param6 : Json
  param7 : Json

/-- `arm_drone` (line 184): `command_long_send(1, 0, 400, 0, 1, 0, 0, 0, 0, 0, 0)`. -/
def arm_drone : CommandLong :=
  ⟨1, 0, 400, 0, .num 1, .num 0, .num 0, .num 0, .num 0, .num 0, .num 0⟩

/-- `disarm_drone` (line 189): `command_long_send(1, 0, 400, 0, 0, 0, 0, 0, 0, 0, 0)`. -/
def disarm_drone : CommandLong :=
  ⟨1, 0, 400, 0, .num 0, .num 0, .num 0, .num 0, .num 0, .num 0, .num 0⟩

/-- `takeoff_drone(altitude)` (line 194):
`command_long_send(1, 0, 22, 0, 0, 0, 0, 0, 0, 0, altitude)`. -/
def takeoff_drone (altitude : Json) : CommandLong :=
  ⟨1, 0, 22, 0, .num 0, .num 0, .num 0, .num 0, .num 0, .num 0, altitude⟩

/-- `land_drone` (line 199): `command_long_send(1, 0, 21, 0, 0, 0, 0, 0, 0, 0, 0)`. -/
def land_drone : CommandLong :=
  ⟨1, 0, 21, 0, .num 0, .num 0, .num 0, .num 0, .num 0, .num 0, .num 0⟩

/-- `on_message` (lines 123-139), as the list of vehicle directives it issues.
`payload` is the result of `json.loads(msg.payload.decode())`: `none` when
decoding raises (`JSONDecodeError` is caught on line 136, dropping the
message).  A non-dict payload makes `payload.get` raise `AttributeError`,
caught by line 138; a command value that is not one of the four recognized
strings fails every `==` comparison.  Totality of this function (it returns a
directive list on every input instead of propagating an exception) embeds the
handler's contract that nothing is raised past the callback boundary. -/
def on_message (payload : Option Json) : List CommandLong :=
  match payload with
  | none => []
  | some p =>
    match p with
    | .obj entries =>
      match List.lookup "command" entries with
      | some (.str s) =>
          if s = "arm" then [arm_drone]
          else if s = "disarm" then [disarm_drone]
          else if s = "takeoff" then
            [takeoff_drone ((List.lookup "altitude" entries).getD (.num 10))]
          else if s = "land" then [land_drone]
          else []
      | _ => []
    | _ => []

end Drone

namespace Hub

/-- The hub configuration dict (`hub_manager_api.py` lines 26-35), as read
back by `load_config`.  The file may lack keys, hence optional fields; the
`.get(..., default)` calls in `get_drone_config` supply the defaults. -/
structure HubConfig where
  mode : Option String
  lan_broker_ip : Option String
  lan_broker_port : Option Int
  vpn_broker_ip : Option String
  vpn_broker_port : Option Int
  headscale_server : Option String
  headscale_port : Option Int
  current_mode : Option String

/-- The per-drone configuration dict returned by
`GET /api/drones/<id>/config` (lines 203-213). -/
structure DroneConfig where
  drone_asset_id : String
  mqtt_host : String
  mqtt_port : Int
  mqtt_user : String
  mqtt_pass : String
  mavlink_port : String
  mavlink_baud : Int
  firmware_version : String
  current_mode : String

/-- `get_drone_config` (lines 193-223), given the loaded hub config: builds
the drone config from the LAN broker settings, fixed credentials and static
MAVLink defaults, then overrides only `mqtt_host` when
`config.get('current_mode') == 'VPN'` (lines 216-217). -/
def get_drone_config (config : HubConfig) (drone_asset_id : String) :
    DroneConfig :=
  let drone_config : DroneConfig :=
    { drone_asset_id := drone_asset_id
      mqtt_host := config.lan_broker_ip.getD "192.168.4.1"
      mqtt_port := config.lan_broker_port.getD 1883
      mqtt_user := "DRN_" ++ drone_asset_id
      mqtt_pass := "changeme"
      mavlink_port := "/dev/ttyUSB0"
      mavlink_baud := 57600
      firmware_version := "1.0.0"
      current_mode := config.current_mode.getD "LAN" }
  if config.current_mode = some "VPN" then
    { drone_config with mqtt_host := config.vpn_broker_ip.getD "100.x.x.x" }
  else
    drone_config

/-- A hub config in VPN mode whose VPN broker port differs from the LAN one;
used to exhibit claim C2's failure. -/
def vpnHubConfig : HubConfig :=
  { mode := some "VPN"
    lan_broker_ip := some "192.168.4.1"
    lan_broker_port := some 1883
    vpn_broker_ip := some "100.64.0.7"
    vpn_broker_port := some 8883
    headscale_server := some "headscale.local"
    headscale_port := some 443
    current_mode := some "VPN" }

/-- Keyword parameters accepted by Python's `subprocess.run` (its own four
keywords plus everything it forwards to `subprocess.Popen`). -/
def subprocess_run_valid_kwargs : List String :=
  ["input", "capture_output", "timeout", "check",
   "bufsize", "executable", "stdin", "stdout", "stderr", "preexec_fn",
   "close_fds", "shell", "cwd", "env", "universal_newlines", "startupinfo",
   "creationflags", "restore_signals", "start_new_session", "pass_fds",
   "group", "extra_groups", "user", "umask", "encoding", "errors", "text",
   "pipesize", "process_group"]

/-- The keyword arguments `create_mosquitto_user` passes to `subprocess.run`
(line 69): `shell=True, capture_output=True, text=True, sudo=False`. -/
def create_mosquitto_user_kwargs : List String :=
  ["shell", "capture_output", "text", "sudo"]

/-- `create_mosquitto_user` (lines 64-77).  The call
`subprocess.run(cmd, shell=True, capture_output=True, text=True, sudo=False)`
passes `sudo`, which is not a parameter of `subprocess.run`/`Popen`, so Python
raises `TypeError` before spawning any process; the surrounding
`except Exception` (line 75) turns this into `return False`.  Only if every
keyword were valid would the result depend on the external
`mosquitto_passwd` tool's return code (`tool_returncode`, line 70). -/
def create_mosquitto_user (username password : String)
    (tool_returncode : Int) : Bool :=
  (create_mosquitto_user_kwargs.all
      (fun k => subprocess_run_valid_kwargs.contains k))
    && (tool_returncode == 0)

/-- The block of lines `update_acl_file` appends for one enrollment (the
f-string on lines 89-95, split at its newlines; the leading empty line is the
f-string's leading `\n`). -/
def new_acl_rules (username asset_id : String) : List String :=
  ["",
   "# ACL for drone user " ++ username,
   "user " ++ username,
   "topic write drone/" ++ asset_id ++ "/status",
   "topic write drone/" ++ asset_id ++ "/telemetry",
   "topic read drone/" ++ asset_id ++ "/command"]

/-- `update_acl_file` (lines 79-105) as a transformation of the ACL file
content (a list of lines): the existing content is read (and ignored) and the
new rule block is appended unconditionally — there is no duplicate check. -/
def update_acl_file (username asset_id : String) (acl : List String) :
    List String :=
  acl ++ new_acl_rules username asset_id

/-- Mosquitto ACL permission keyword. -/
inductive AclPerm where
  | read
  | write
  deriving DecidableEq

/-- One mosquitto access rule: the user it applies to, the topic, and the
granted permission. -/
structure AccessRule where
  username : String
  topic : String
  perm : AclPerm
  deriving DecidableEq

/-- Classification of one ACL file line, following the mosquitto ACL format
the hub writes: `user <name>` opens a user block, `topic write <t>` /
`topic read <t>` grant permissions, anything else (comments, blank lines) is
inert. -/
inductive AclLine where
  | user (name : String)
  | write (topic : String)
  | read (topic : String)
  | other

/-- Classify one line of the ACL file. -/
def classify_line (l : String) : AclLine :=
  if ("user ".data).isPrefixOf l.data then .user ⟨l.data.drop 5⟩
  else if ("topic write ".data).isPrefixOf l.data then .write ⟨l.data.drop 12⟩
  else if ("topic read ".data).isPrefixOf l.data then .read ⟨l.data.drop 11⟩
  else .other

/-- Fold the classified lines into the list of access rules they grant:
topic lines apply to the most recently opened user block. -/
def aclParseLines : List String → Option String → List AccessRule
  | [], _ => []
  | l :: ls, cur =>
    match classify_line l, cur with
    | .user u, _ => aclParseLines ls (some u)
    | .write t, some u => ⟨u, t, .write⟩ :: aclParseLines ls (some u)
    | .write _, none => aclParseLines ls none
    | .read t, some u => ⟨u, t, .read⟩ :: aclParseLines ls (some u)
    | .read _, none => aclParseLines ls none
    | .other, _ => aclParseLines ls cur

/-- The rule set an ACL file content denotes. -/
def aclRules (content : List String) : List AccessRule :=
  aclParseLines content none

/-- Outcome of a hub API endpoint: a success payload or an error payload with
its HTTP status code. -/
inductive ApiResponse where
  | success (asset_id username message : String)
  | failure (error : String) (code : Nat)

/-- `add_asset` (lines 142-191), the enrollment endpoint.  The three request
fields are `Option`s (`none` = missing, checked in the order of
`required_fields`).  `tool_returncode` and `acl_write_ok` model the external
outcomes of steps 1 and 2; `restart_ok` models step 3's
`systemctl restart mosquitto`, whose failure is only logged (lines 175-180)
and does not affect the response. -/
def add_asset (asset_id username password : Option String)
    (tool_returncode : Int) (acl_write_ok : Bool) (restart_ok : Bool) :
    ApiResponse :=
  match asset_id with
  | none => .failure "Missing field: asset_id" 400
  | some a =>
  match username with
  | none => .failure "Missing field: username" 400
  | some u =>
  match password with
  | none => .failure "Missing field: password" 400
  | some p =>
  if create_mosquitto_user u p tool_returncode = false then
    .failure "Failed to create Mosquitto user" 500
  else if acl_write_ok = false then
    .failure "Failed to update ACL" 500
  else
    .success a u ("Asset " ++ a ++ " created. Mosquitto restart needed.")

/-- The managed services named by the spec's allow-list (the services the
`restart_service` docstring lists, lines 228-230).  The handler itself never
consults any such list. -/
def managed_services : List String :=
  ["mosquitto", "headscale", "wetty"]

/-- The loop body of `restart_service` (lines 236-244): for each requested
service, in order, a `systemctl restart` invocation is issued; `world`
tells whether that invocation raised (timeout etc.), which only changes the
recorded result string.  Returns (issued invocations, results dict). -/
def restart_loop (world : String → Bool) :
    List String → List String × List (String × String)
  | [] => ([], [])
  | s :: rest =>
    let r := restart_loop world rest
    (s :: r.1,
     (s, if world s then "restarted" else "error: restart failed") :: r.2)

/-- `restart_service` (lines 225-250): the requested list of services
(defaulting to `['mosquitto']` when the field is absent, line 233) is
processed by the loop with no validation of the names. -/
def restart_service (services : Option (List String))
    (world : String → Bool) : List String × List (String × String) :=
  restart_loop world (services.getD ["mosquitto"])

end Hub

/-! ## Helper lemmas on strings and character lists -/

theorem strData_append (s t : String) : (s ++ t).data = s.data ++ t.data := rfl

theorem strMk_data (s : String) : String.mk s.data = s := rfl

theorem acl_isPrefixOf_append (p l r : List Char) (h : p.length ≤ l.length) :
    p.isPrefixOf (l ++ r) = p.isPrefixOf l := by
  induction p generalizing l with
  | nil => simp [List.isPrefixOf]
  | cons c cs ih =>
    cases l with
    | nil => simp at h
    | cons d ds =>
      simp only [List.cons_append, List.isPrefixOf, List.append_eq]
      rw [ih ds (by simpa using h)]

theorem acl_isPrefixOf_self (p r : List Char) : p.isPrefixOf (p ++ r) = true := by
  induction p with
  | nil => simp [List.isPrefixOf]
  | cons c cs ih => simp [List.isPrefixOf, ih]

theorem classify_empty : Hub.classify_line "" = Hub.AclLine.other := rfl

theorem classify_comment (u : String) :
    Hub.classify_line ("# ACL for drone user " ++ u) = Hub.AclLine.other := by
  have h1 : ("user ".data).isPrefixOf (("# ACL for drone user " ++ u).data) = false := by
    rw [strData_append, acl_isPrefixOf_append _ _ _ (by decide)]
    decide
  have h2 : ("topic write ".data).isPrefixOf (("# ACL for drone user " ++ u).data) = false := by
    rw [strData_append, acl_isPrefixOf_append _ _ _ (by decide)]
    decide
  have h3 : ("topic read ".data).isPrefixOf (("# ACL for drone user " ++ u).data) = false := by
    rw [strData_append, acl_isPrefixOf_append _ _ _ (by decide)]
    decide
  simp [Hub.classify_line, h1, h2, h3]

theorem classify_user (u : String) :
    Hub.classify_line ("user " ++ u) = Hub.AclLine.user u := by
  have h : ("user ".data).isPrefixOf (("user " ++ u).data) = true := by
    rw [strData_append]; exact acl_isPrefixOf_self _ _
  have hd : (("user " ++ u).data).drop 5 = u.data := by
    rw [strData_append]; exact List.drop_left' rfl
  simp [Hub.classify_line, h, hd, strMk_data]

theorem classify_status (a : String) :
    Hub.classify_line ("topic write drone/" ++ a ++ "/status")
      = Hub.AclLine.write (Drone.status_topic a) := by
  have h1 : ("user ".data).isPrefixOf
      (("topic write drone/" ++ a ++ "/status").data) = false := by
    rw [strData_append, strData_append, List.append_assoc,
      acl_isPrefixOf_append _ _ _ (by decide)]
    decide
  have h2 : ("topic write ".data).isPrefixOf
      (("topic write drone/" ++ a ++ "/status").data) = true := by
    rw [strData_append, strData_append, List.append_assoc,
      acl_isPrefixOf_append _ _ _ (by decide)]
    decide
  have hd : (("topic write drone/" ++ a ++ "/status").data).drop 12
      = (Drone.status_topic a).data := by
    rw [strData_append, strData_append,
      show "topic write drone/".data = "topic write ".data ++ "drone/".data by decide,
      List.append_assoc, List.append_assoc, List.drop_left' (by decide)]
    simp [Drone.status_topic, strData_append, List.append_assoc]
  simp [Hub.classify_line, h1, h2, hd, strMk_data]
  refine congrArg String.mk ?_
  simp [Drone.status_topic]

theorem classify_telemetry (a : String) :
    Hub.classify_line ("topic write drone/" ++ a ++ "/telemetry")
      = Hub.AclLine.write (Drone.telemetry_topic a) := by
  have h1 : ("user ".data).isPrefixOf
      (("topic write drone/" ++ a ++ "/telemetry").data) = false := by
    rw [strData_append, strData_append, List.append_assoc,
      acl_isPrefixOf_append _ _ _ (by decide)]
    decide
  have h2 : ("topic write ".data).isPrefixOf
      (("topic write drone/" ++ a ++ "/telemetry").data) = true := by
    rw [strData_append, strData_append, List.append_assoc,
      acl_isPrefixOf_append _ _ _ (by decide)]
    decide
  have hd : (("topic write drone/" ++ a ++ "/telemetry").data).drop 12
      = (Drone.telemetry_topic a).data := by
    rw [strData_append, strData_append,
      show "topic write drone/".data = "topic write ".data ++ "drone/".data by decide,
      List.append_assoc, List.append_assoc, List.drop_left' (by decide)]
    simp [Drone.telemetry_topic, strData_append, List.append_assoc]
  simp [Hub.classify_line, h1, h2, hd, strMk_data]
  refine congrArg String.mk ?_
  simp [Drone.telemetry_topic]

theorem classify_command (a : String) :
    Hub.classify_line ("topic read drone/" ++ a ++ "/command")
      = Hub.AclLine.read (Drone.command_topic a) := by
  have h1 : ("user ".data).isPrefixOf
      (("topic read drone/" ++ a ++ "/command").data) = false := by
    rw [strData_append, strData_append, List.append_assoc,
      acl_isPrefixOf_append _ _ _ (by decide)]
    decide
  have h2 : ("topic write ".data).isPrefixOf
      (("topic read drone/" ++ a ++ "/command").data) = false := by
    rw [strData_append, strData_append, List.append_assoc,
      acl_isPrefixOf_append _ _ _ (by decide)]
    decide
  have h3 : ("topic read ".data).isPrefixOf
      (("topic read drone/" ++ a ++ "/command").data) = true := by
    rw [strData_append, strData_append, List.append_assoc,
      acl_isPrefixOf_append _ _ _ (by decide)]
    decide
  have hd : (("topic read drone/" ++ a ++ "/command").data).drop 11
      = (Drone.command_topic a).data := by
    rw [strData_append, strData_append,
      show "topic read drone/".data = "topic read ".data ++ "drone/".data by decide,
      List.append_assoc, List.append_assoc, List.drop_left' (by decide)]
    simp [Drone.command_topic, strData_append, List.append_assoc]
  simp [Hub.classify_line, h1, h2, h3, hd, strMk_data]
  refine congrArg String.mk ?_
  simp [Drone.command_topic]

/-! ## Claim theorems -/

/-- C5: a (first) enrollment's ACL append produces, for the enrolled user,
exactly three access rules — write on the device's status topic, write on its
telemetry topic, and read on its command topic — and these topic strings are
exactly the strings the bridge publishes status/telemetry to and subscribes
to for commands for that device_id. -/
theorem enroll_rules_match_bridge_topics (u a : String) (acl : List String) :
    Hub.update_acl_file u a acl = acl ++ Hub.new_acl_rules u a ∧
    Hub.aclRules (Hub.new_acl_rules u a) =
      [⟨u, Drone.status_topic a, Hub.AclPerm.write⟩,
       ⟨u, Drone.telemetry_topic a, Hub.AclPerm.write⟩,
       ⟨u, Drone.command_topic a, Hub.AclPerm.read⟩] := by
  refine ⟨rfl, ?_⟩
  simp only [Hub.aclRules, Hub.new_acl_rules, Hub.aclParseLines, classify_empty,
    classify_comment, classify_user, classify_status, classify_telemetry,
    classify_command]

/-- C1 (refuting evaluation): enrolling the same device twice is not
idempotent on the ACL rule set — the second `update_acl_file` blindly appends
the same three rules again, so the store holds each rule twice and the rule
list is no longer duplicate-free. -/
theorem hub_reenroll_appends_duplicate_rules :
    Hub.aclRules (Hub.update_acl_file "DRN_SD6AB001" "SD6AB001"
        (Hub.update_acl_file "DRN_SD6AB001" "SD6AB001" []))
      = Hub.aclRules (Hub.update_acl_file "DRN_SD6AB001" "SD6AB001" [])
        ++ Hub.aclRules (Hub.update_acl_file "DRN_SD6AB001" "SD6AB001" []) ∧
    (Hub.aclRules (Hub.update_acl_file "DRN_SD6AB001" "SD6AB001" [])).length = 3 ∧
    ¬ (Hub.aclRules (Hub.update_acl_file "DRN_SD6AB001" "SD6AB001"
        (Hub.update_acl_file "DRN_SD6AB001" "SD6AB001" []))).Nodup := by
  decide

/-- C2 (counterexample): in VPN mode the assembled drone config takes the VPN
broker ip but keeps the LAN broker port — with `vpn_broker_port = 8883` and
`lan_broker_port = 1883` the returned `mqtt_port` is 1883, not the
`vpn_broker_port` the claim requires. -/
theorem vpn_mode_keeps_lan_port :
    (Hub.get_drone_config Hub.vpnHubConfig "SD6AB001").mqtt_host = "100.64.0.7" ∧
    (Hub.get_drone_config Hub.vpnHubConfig "SD6AB001").mqtt_port = 1883 ∧
    Hub.vpnHubConfig.vpn_broker_port = some 8883 ∧
    (1883 : Int) ≠ 8883 := by
  refine ⟨rfl, rfl, rfl, by decide⟩

/-- C2 (amended): the assembly is a pure function of the hub config and the
device id; `current_mode` selects only the broker host (VPN → vpn_broker_ip,
otherwise lan_broker_ip), while the broker port always comes from
`lan_broker_port` regardless of mode. -/
theorem drone_config_host_by_mode_port_always_lan
    (config : Hub.HubConfig) (drone_asset_id : String) :
    (Hub.get_drone_config config drone_asset_id).mqtt_host =
      (if config.current_mode = some "VPN" then config.vpn_broker_ip.getD "100.x.x.x"
       else config.lan_broker_ip.getD "192.168.4.1") ∧
    (Hub.get_drone_config config drone_asset_id).mqtt_port =
      config.lan_broker_port.getD 1883 ∧
    (Hub.get_drone_config config drone_asset_id).drone_asset_id =
      drone_asset_id := by
  by_cases h : config.current_mode = some "VPN" <;>
    simp [Hub.get_drone_config, h]

/-- C10: the drone config returned by the hub's remote-fetch path always
carries `mqtt_user = "DRN_" ++ device_id` and the fixed constant
`mqtt_pass = "changeme"`; the model's only inputs are the hub config and the
device id, and neither field depends on the hub config, so no enrollment
password or stored credential can influence the returned credential. -/
theorem drone_config_credentials_fixed
    (config : Hub.HubConfig) (drone_asset_id : String) :
    (Hub.get_drone_config config drone_asset_id).mqtt_user =
      "DRN_" ++ drone_asset_id ∧
    (Hub.get_drone_config config drone_asset_id).mqtt_pass = "changeme" := by
  by_cases h : config.current_mode = some "VPN" <;>
    simp [Hub.get_drone_config, h]

/-- C3 (counterexample): a restart request naming `sshd`, a service outside
the documented allow-list, is not rejected — the handler issues the restart
invocation for it and records it as restarted. -/
theorem restart_executes_unlisted_service :
    "sshd" ∉ Hub.managed_services ∧
    (Hub.restart_service (some ["sshd"]) (fun _ => true)).1 = ["sshd"] ∧
    (Hub.restart_service (some ["sshd"]) (fun _ => true)).2 =
      [("sshd", "restarted")] := by
  refine ⟨by decide, rfl, rfl⟩

/-- C3 (amended): the service-restart handler performs no allow-list check at
all — it issues a restart invocation for every service named in the request,
in order, whatever the names are. -/
theorem restart_issues_request_for_every_name
    (world : String → Bool) (services : List String) :
    (Hub.restart_service (some services) world).1 = services := by
  induction services with
  | nil => rfl
  | cons s rest ih =>
    simpa [Hub.restart_service, Hub.restart_loop] using ih

/-- C4 (refuting evaluation): enrollment can never reach the success path.
For every outcome of the external password tool, ACL write and broker
restart, a well-formed enrollment request fails at step 1 with
"Failed to create Mosquitto user" (HTTP 500), because `create_mosquitto_user`
passes the invalid keyword argument `sudo` to `subprocess.run`, which raises
`TypeError` on every call. -/
theorem enroll_always_fails_credential_step
    (tool_returncode : Int) (acl_write_ok restart_ok : Bool) :
    Hub.add_asset (some "SD6AB001") (some "DRN_SD6AB001")
        (some "secure_drone_pass") tool_returncode acl_write_ok restart_ok
      = Hub.ApiResponse.failure "Failed to create Mosquitto user" 500 := by
  have h : Hub.create_mosquitto_user "DRN_SD6AB001" "secure_drone_pass"
      tool_returncode = false := by
    have hk : Hub.create_mosquitto_user_kwargs.all
        (fun k => Hub.subprocess_run_valid_kwargs.contains k) = false := by
      decide
    unfold Hub.create_mosquitto_user
    rw [hk, Bool.false_and]
  simp [Hub.add_asset, h]

/-- C6 (counterexample): a local config file that is present and parses as
the valid JSON value `{}` is not returned verbatim — the empty object is
falsy, so `load_config` falls through to the environment tier and returns the
default config instead of the file's content. -/
theorem local_falsy_config_not_returned :
    Drone.load_config (some (Json.obj [])) (fun _ => none) (fun _ => none)
      = some (Json.obj Drone.DEFAULT_CONFIG) ∧
    Json.obj Drone.DEFAULT_CONFIG ≠ Json.obj [] := by
  constructor
  · rfl
  · intro h
    injection h with h2
    simp [Drone.DEFAULT_CONFIG] at h2

/-- C6 (amended): when the local persisted file is present and parses to a
truthy value (in particular any non-empty object), `load_config` returns
exactly that value — no merge with defaults, environment or remote fetch, and
since the result does not depend on the `env` and `api` parameters, tiers 2
and 3 are not consulted.  A file parsing to a falsy value such as `{}`
instead falls through to tier 2 as if the file were absent. -/
theorem local_truthy_config_returned_verbatim (c : Json)
    (env : String → Option String) (api : String → Option Json)
    (h : c.truthy = true) :
    Drone.load_config (some c) env api = some c := by
  simp [Drone.load_config, h]

/-- Witness for `local_truthy_config_returned_verbatim` at a concrete
non-empty local config file. -/
theorem local_truthy_config_returned_verbatim_witness :
    (Json.obj [("mqtt_host", Json.str "10.0.0.1")]).truthy = true ∧
    Drone.load_config (some (Json.obj [("mqtt_host", Json.str "10.0.0.1")]))
        (fun _ => none) (fun _ => none)
      = some (Json.obj [("mqtt_host", Json.str "10.0.0.1")]) :=
  ⟨rfl, local_truthy_config_returned_verbatim _ _ _ rfl⟩

/-- C7: the payload `{"command": "takeoff", "altitude": 25}` makes the
command bridge issue exactly one takeoff directive (MAVLink command 22) with
altitude parameter 25, and the payload `{"command": "takeoff"}` with no
altitude field issues exactly one takeoff directive with the default
altitude 10. -/
theorem takeoff_command_altitude_dispatch :
    Drone.on_message (some (Json.obj
        [("command", Json.str "takeoff"), ("altitude", Json.num 25)]))
      = [Drone.takeoff_drone (Json.num 25)] ∧
    Drone.on_message (some (Json.obj [("command", Json.str "takeoff")]))
      = [Drone.takeoff_drone (Json.num 10)] ∧
    (Drone.takeoff_drone (Json.num 25)).command = 22 ∧
    (Drone.takeoff_drone (Json.num 25)).param7 = Json.num 25 ∧
    (Drone.takeoff_drone (Json.num 10)).param7 = Json.num 10 :=
  ⟨rfl, rfl, rfl, rfl, rfl⟩

/-- C8: the command bridge issues zero directives (and, being a total
function of the decoded payload, propagates no exception) for a malformed
payload (`none`, i.e. a decode failure), for a dict payload with no
`command` key, for a dict payload whose `command` value is not one of the
four recognized tags, and for any non-dict payload. -/
theorem malformed_or_unknown_command_dropped :
    Drone.on_message none = [] ∧
    (∀ entries : List (String × Json), List.lookup "command" entries = none →
      Drone.on_message (some (Json.obj entries)) = []) ∧
    (∀ (entries : List (String × Json)) (v : Json),
      List.lookup "command" entries = some v →
      v ∉ [Json.str "arm", Json.str "disarm", Json.str "takeoff",
           Json.str "land"] →
      Drone.on_message (some (Json.obj entries)) = []) ∧
    (∀ j : Json, (∀ entries, j ≠ Json.obj entries) →
      Drone.on_message (some j) = []) := by
  refine ⟨rfl, ?_, ?_, ?_⟩
  · intro entries h
    simp [Drone.on_message, h]
  · intro entries v hl hv
    simp only [List.mem_cons, List.not_mem_nil, or_false, not_or] at hv
    obtain ⟨h1, h2, h3, h4⟩ := hv
    cases v with
    | str s =>
      have hs1 : s ≠ "arm" := fun hs => h1 (by rw [hs])
      have hs2 : s ≠ "disarm" := fun hs => h2 (by rw [hs])
      have hs3 : s ≠ "takeoff" := fun hs => h3 (by rw [hs])
      have hs4 : s ≠ "land" := fun hs => h4 (by rw [hs])
      simp [Drone.on_message, hl, hs1, hs2, hs3, hs4]
    | null => simp [Drone.on_message, hl]
    | bool b => simp [Drone.on_message, hl]
    | num q => simp [Drone.on_message, hl]
    | arr elems => simp [Drone.on_message, hl]
    | obj o => simp [Drone.on_message, hl]
  · intro j hj
    cases j with
    | obj entries => exact absurd rfl (hj entries)
    | null => rfl
    | bool b => rfl
    | num q => rfl
    | str s => rfl
    | arr elems => rfl

/-- Witness for `malformed_or_unknown_command_dropped` at concrete inputs:
a decode failure, a dict without a command tag, an unrecognized command tag,
and a non-dict payload. -/
theorem malformed_or_unknown_command_dropped_witness :
    Drone.on_message none = [] ∧
    Drone.on_message (some (Json.obj [("altitude", Json.num 25)])) = [] ∧
    Drone.on_message (some (Json.obj [("command", Json.str "hover")])) = [] ∧
    Drone.on_message (some (Json.str "arm")) = [] :=
  ⟨malformed_or_unknown_command_dropped.1,
   malformed_or_unknown_command_dropped.2.1 _ rfl,
   malformed_or_unknown_command_dropped.2.2.1 _ _ rfl (by
     intro hmem
     simp only [List.mem_cons, List.not_mem_nil, or_false] at hmem
     rcases hmem with h | h | h | h <;>
       (injection h with hs; exact absurd hs (by decide))),
   malformed_or_unknown_command_dropped.2.2.2 _
     (fun entries h => Json.noConfusion h)⟩

/-- C9: the telemetry sample emitted for a global-position message applies
exactly the documented unit conversions — lat/lon scaled by 1e-7 to degrees,
alt by 1e-3 to meters, vx/vy by 1e-2 to m/s (stated multiplicatively: the
scaled value times the divisor recovers the raw integer) — and in particular
raw lat=407128000, lon=-740060000, alt=10000, vx=500, vy=-300 yield exactly
lat=40.7128, lon=-74.0060, alt=10.0, vx=5.0, vy=-3.0, published on the
device's telemetry topic. -/
theorem global_position_unit_conversions :
    (∀ (drone_asset_id : String) (t : ℚ) (lat lon alt vx vy : ℤ),
      (Drone.telemetry_message drone_asset_id t lat lon alt vx vy).1
        = Drone.telemetry_topic drone_asset_id ∧
      (Drone.telemetry_message drone_asset_id t lat lon alt vx vy).2.lat
        * 10000000 = lat ∧
      (Drone.telemetry_message drone_asset_id t lat lon alt vx vy).2.lon
        * 10000000 = lon ∧
      (Drone.telemetry_message drone_asset_id t lat lon alt vx vy).2.alt
        * 1000 = alt ∧
      (Drone.telemetry_message drone_asset_id t lat lon alt vx vy).2.vx
        * 100 = vx ∧
      (Drone.telemetry_message drone_asset_id t lat lon alt vx vy).2.vy
        * 100 = vy) ∧
    (∀ (drone_asset_id : String) (t : ℚ),
      (Drone.telemetry_message drone_asset_id t
          407128000 (-740060000) 10000 500 (-300)).2.lat = 40.7128 ∧
      (Drone.telemetry_message drone_asset_id t
          407128000 (-740060000) 10000 500 (-300)).2.lon = -74.0060 ∧
      (Drone.telemetry_message drone_asset_id t
          407128000 (-740060000) 10000 500 (-300)).2.alt = 10 ∧
      (Drone.telemetry_message drone_asset_id t
          407128000 (-740060000) 10000 500 (-300)).2.vx = 5 ∧
      (Drone.telemetry_message drone_asset_id t
          407128000 (-740060000) 10000 500 (-300)).2.vy = -3 ∧
      (Drone.telemetry_message drone_asset_id t
          407128000 (-740060000) 10000 500 (-300)).2.timestamp = t ∧
      (Drone.telemetry_message drone_asset_id t
          407128000 (-740060000) 10000 500 (-300)).2.drone_id
        = drone_asset_id) := by
  constructor
  · intro drone_asset_id t lat lon alt vx vy
    refine ⟨rfl, ?_, ?_, ?_, ?_, ?_⟩ <;>
      exact div_mul_cancel₀ _ (by norm_num)
  · intro drone_asset_id t
    refine ⟨?_, ?_, ?_, ?_, ?_, rfl, rfl⟩ <;>
      norm_num [Drone.telemetry_message]
